import Mathlib

/-!
Shallow embedding of the market-research pipeline
(`src/agents/market_research_agent.py`, `src/utils/market_analyzer.py`).

Python dictionaries, lists and JSON payloads are modelled by the `Value`
type; absent dictionary keys (`dict.get`) are modelled by `Option`;
a raised exception is modelled by `Except.error msg`; `datetime.now()`
timestamps and network outcomes are explicit parameters.
-/

/-- A JSON-like Python value (dict / list / string / number / None).
Number literals in the source are only ever the constant `0.0`, modelled
as the integer 0 (no floating-point computation occurs anywhere). -/
inductive Value where
  | null : Value
  | str (s : String) : Value
  | num (n : Int) : Value
  | list (xs : List Value) : Value
  | dict (kvs : List (String × Value)) : Value

/-- The dict returned by one `_gather_*` coroutine, viewed through
`dict.get`: each field is `none` when the key is absent. -/
structure FetchResult where
  source : Option String
  data : Option Value
  error : Option String
  timestamp : Option String

/-- One entry of `combined_data['sources']`: the dict literal built in
`MarketAnalyzer._combine_data`, with exactly the keys
`data`, `error`, `timestamp`. -/
structure SourceEntry where
  data : Value
  error : Option String
  timestamp : Option String

/-- The combined dict returned by `_combine_data`: a timestamp plus a
Python dict keyed by source identifier (insertion-ordered association
list with unique keys). -/
structure MarketDataBundle where
  timestamp : String
  sources : List (String × SourceEntry)

/-- The outcome of one network round-trip performed by a fetcher:
either a response arrived (with an HTTP status and, were `json()` to be
called, a parse outcome), or the transport layer raised an exception. -/
inductive NetOutcome where
  | response (status : Nat) (parse : Except String Value) : NetOutcome
  | exn (msg : String) : NetOutcome

/-- Whether the fetch on this outcome ends in the `error` field being set
(non-200 status, parse failure, or transport exception). -/
def NetOutcome.failed : NetOutcome → Bool
  | .response status parse =>
      decide (status ≠ 200) || (match parse with | .error _ => true | .ok _ => false)
  | .exn _ => true

namespace MarketAnalyzer

/-- `MarketAnalyzer._gather_industry_trends`: GET on the `trends`
endpoint; a 200 response is parsed into `data`, a non-200 status yields
`error = "Failed to fetch data: <status>"`, and any exception (transport
or parse) yields `error = str(e)`. Never raises. -/
def gather_industry_trends (o : NetOutcome) (ts : String) : FetchResult :=
  match o with
  | NetOutcome.response status parse =>
      if status = 200 then
        match parse with
        | Except.ok data =>
            { source := some "industry_trends", data := some data,
              error := none, timestamp := some ts }
        | Except.error e =>
            { source := some "industry_trends", data := none,
              error := some e, timestamp := some ts }
      else
        { source := some "industry_trends", data := none,
          error := some ("Failed to fetch data: " ++ toString status),
          timestamp := some ts }
  | NetOutcome.exn e =>
      { source := some "industry_trends", data := none,
        error := some e, timestamp := some ts }

/-- `MarketAnalyzer._gather_competitor_data`: same control flow on the
`competitors` endpoint. -/
def gather_competitor_data (o : NetOutcome) (ts : String) : FetchResult :=
  match o with
  | NetOutcome.response status parse =>
      if status = 200 then
        match parse with
        | Except.ok data =>
            { source := some "competitor_data", data := some data,
              error := none, timestamp := some ts }
        | Except.error e =>
            { source := some "competitor_data", data := none,
              error := some e, timestamp := some ts }
      else
        { source := some "competitor_data", data := none,
          error := some ("Failed to fetch data: " ++ toString status),
          timestamp := some ts }
  | NetOutcome.exn e =>
      { source := some "competitor_data", data := none,
        error := some e, timestamp := some ts }

/-- `MarketAnalyzer._gather_market_demands`: same control flow on the
`market_data` endpoint. -/
def gather_market_demands (o : NetOutcome) (ts : String) : FetchResult :=
  match o with
  | NetOutcome.response status parse =>
      if status = 200 then
        match parse with
        | Except.ok data =>
            { source := some "market_demands", data := some data,
              error := none, timestamp := some ts }
        | Except.error e =>
            { source := some "market_demands", data := none,
              error := some e, timestamp := some ts }
      else
        { source := some "market_demands", data := none,
          error := some ("Failed to fetch data: " ++ toString status),
          timestamp := some ts }
  | NetOutcome.exn e =>
      { source := some "market_demands", data := none,
        error := some e, timestamp := some ts }

/-- `MarketAnalyzer._gather_social_media_trends`: no endpoint is
configured; it unconditionally returns the stub success result
`{'source': 'social_media', 'data': {'trends': []}, 'timestamp': ...}`. -/
def gather_social_media_trends (ts : String) : FetchResult :=
  { source := some "social_media",
    data := some (Value.dict [("trends", Value.list [])]),
    error := none, timestamp := some ts }

/-- Python dict assignment `d[k] = v` on an insertion-ordered
association list: overwrite in place when the key is present, append
otherwise. -/
def dictInsert : List (String × SourceEntry) → String → SourceEntry →
    List (String × SourceEntry)
  | [], k, v => [(k, v)]
  | (k', v') :: rest, k, v =>
      if k' = k then (k, v) :: rest else (k', v') :: dictInsert rest k v

/-- Python dict lookup `d[k]` / `d.get(k)` on the association list. -/
def lookupSrc : List (String × SourceEntry) → String → Option SourceEntry
  | [], _ => none
  | (k', v') :: rest, k => if k' = k then some v' else lookupSrc rest k

/-- The entry stored for one fetch result in `_combine_data`:
`{'data': result.get('data', {}), 'error': result.get('error'),
'timestamp': result.get('timestamp')}`. -/
def entryOf (r : FetchResult) : SourceEntry :=
  { data := r.data.getD (Value.dict []),
    error := r.error,
    timestamp := r.timestamp }

/-- The body of the `for result in results` loop in `_combine_data`:
`source = result.get('source'); if source: sources[source] = {...}`.
A missing or empty (falsy) source tag skips the result. -/
def combineStep (acc : List (String × SourceEntry)) (result : FetchResult) :
    List (String × SourceEntry) :=
  match result.source with
  | some source => if source = "" then acc else dictInsert acc source (entryOf result)
  | none => acc

/-- `MarketAnalyzer._combine_data`: fold all fetch results into the
`sources` dict of a fresh combined bundle. -/
def combine_data (tb : String) (results : List FetchResult) : MarketDataBundle :=
  { timestamp := tb,
    sources := results.foldl combineStep [] }

/-- Fault injected outside the fetch tasks (the fetchers themselves
never raise): e.g. inside `asyncio.gather` machinery or `_combine_data`. -/
inductive GatherFault where
  | noFault : GatherFault
  | fault (msg : String) : GatherFault

/-- The observable effect of one `gather_data()` call: its returned
value or propagated exception, and whether `self.session` was closed. -/
structure GatherExec where
  result : Except String MarketDataBundle
  sessionClosed : Bool

/-- The four task results of `asyncio.gather(*tasks)` in join order. -/
def gatherResults (o1 o2 o3 : NetOutcome) (t1 t2 t3 t4 : String) :
    List FetchResult :=
  [gather_industry_trends o1 t1,
   gather_competitor_data o2 t2,
   gather_market_demands o3 t3,
   gather_social_media_trends t4]

/-- `MarketAnalyzer.gather_data`: opens `self.session`, then inside
`try:` awaits all four fetch tasks and combines them; the `finally:`
block closes the session on the normal path and on the path where an
unexpected fault propagates out of the try block. -/
def gather_data (f : GatherFault) (o1 o2 o3 : NetOutcome)
    (t1 t2 t3 t4 tb : String) : GatherExec :=
  let body : Except String MarketDataBundle :=
    match f with
    | GatherFault.fault msg => Except.error msg
    | GatherFault.noFault =>
        Except.ok (combine_data tb (gatherResults o1 o2 o3 t1 t2 t3 t4))
  { result := body, sessionClosed := true }

/-- The bundle produced on the fault-free path of `gather_data`. -/
def gatherBundle (o1 o2 o3 : NetOutcome) (t1 t2 t3 t4 tb : String) :
    MarketDataBundle :=
  combine_data tb (gatherResults o1 o2 o3 t1 t2 t3 t4)

/-- The last result in join order whose `source` tag equals `k`. -/
def lastWithSource : List FetchResult → String → Option FetchResult
  | [], _ => none
  | r :: rest, k =>
      match lastWithSource rest k with
      | some r' => some r'
      | none => if r.source = some k then some r else none

/-- Whether `result.get('source')` is truthy in Python
(present and not the empty string). -/
def hasTruthySource (r : FetchResult) : Bool :=
  match r.source with
  | some s => decide (s ≠ "")
  | none => false

/-- `MarketAnalyzer._analyze_trends`: returns the constant shape
`{'emerging_trends': [], 'declining_trends': [], 'stable_trends': []}`
(the body is an unimplemented placeholder). -/
def analyze_trends (_data : MarketDataBundle) : Value :=
  Value.dict [("emerging_trends", Value.list []),
              ("declining_trends", Value.list []),
              ("stable_trends", Value.list [])]

/-- `MarketAnalyzer._analyze_competitors`: constant placeholder shape. -/
def analyze_competitors (_data : MarketDataBundle) : Value :=
  Value.dict [("market_leaders", Value.list []),
              ("emerging_competitors", Value.list []),
              ("competitive_advantages", Value.dict [])]

/-- `MarketAnalyzer._identify_opportunities`: constant placeholder `[]`. -/
def identify_opportunities (_data : MarketDataBundle) : Value :=
  Value.list []

/-- `MarketAnalyzer._assess_risks`: constant placeholder `[]`. -/
def assess_risks (_data : MarketDataBundle) : Value :=
  Value.list []

/-- `MarketAnalyzer._analyze_sentiment`: constant placeholder
`{'overall': 0.0, 'by_sector': {}, 'by_product': {}}`. -/
def analyze_sentiment (_data : MarketDataBundle) : Value :=
  Value.dict [("overall", Value.num 0),
              ("by_sector", Value.dict []),
              ("by_product", Value.dict [])]

/-- `MarketAnalyzer._assess_growth_potential`: constant placeholder. -/
def assess_growth_potential (_data : MarketDataBundle) : Value :=
  Value.dict [("short_term", Value.dict []),
              ("medium_term", Value.dict []),
              ("long_term", Value.dict [])]

/-- `MarketAnalyzer._generate_recommendations`: constant placeholder `[]`. -/
def generate_recommendations (_analysis : Value) : Value :=
  Value.list []

/-- The seven pluggable bodies called inside `analyze_data`'s `try:`
block. The spec treats the algorithm bodies as external collaborators;
each may raise (modelled by `Except`). -/
structure AnalyzerFacets where
  analyze_trends : MarketDataBundle → Except String Value
  analyze_competitors : MarketDataBundle → Except String Value
  identify_opportunities : MarketDataBundle → Except String Value
  assess_risks : MarketDataBundle → Except String Value
  analyze_sentiment : MarketDataBundle → Except String Value
  assess_growth_potential : MarketDataBundle → Except String Value
  generate_recommendations : Value → Except String Value

/-- The `analysis` dict literal built inside `analyze_data`. -/
def assembleAnalysis (mt ca oa rf ms gp : Value) : Value :=
  Value.dict [("market_trends", mt),
              ("competitor_analysis", ca),
              ("opportunity_areas", oa),
              ("risk_factors", rf),
              ("market_sentiment", ms),
              ("growth_potential", gp)]

/-- The dict returned by `analyze_data` on success. -/
def reportOf (ts : String) (analysis recommendations : Value) : Value :=
  Value.dict [("timestamp", Value.str ts),
              ("analysis", analysis),
              ("recommendations", recommendations)]

/-- `MarketAnalyzer.analyze_data` with its facet bodies abstracted: the
`try:` block evaluates the six facets, assembles the `analysis` dict,
derives recommendations, and returns the report; `except Exception as e:`
re-raises `Exception(f"Error analyzing market data: {str(e)}")`. -/
def analyze_data_with (F : AnalyzerFacets) (ts : String)
    (data : MarketDataBundle) : Except String Value :=
  match (do
    let market_trends ← F.analyze_trends data
    let competitor_analysis ← F.analyze_competitors data
    let opportunity_areas ← F.identify_opportunities data
    let risk_factors ← F.assess_risks data
    let market_sentiment ← F.analyze_sentiment data
    let growth_potential ← F.assess_growth_potential data
    let analysis := assembleAnalysis market_trends competitor_analysis
      opportunity_areas risk_factors market_sentiment growth_potential
    let recommendations ← F.generate_recommendations analysis
    pure (reportOf ts analysis recommendations) : Except String Value) with
  | Except.ok v => Except.ok v
  | Except.error e => Except.error ("Error analyzing market data: " ++ e)

/-- The facet bodies as they stand in the source: total placeholder
functions, lifted into `Except`. -/
def facets : AnalyzerFacets :=
  { analyze_trends := fun d => Except.ok (analyze_trends d)
    analyze_competitors := fun d => Except.ok (analyze_competitors d)
    identify_opportunities := fun d => Except.ok (identify_opportunities d)
    assess_risks := fun d => Except.ok (assess_risks d)
    analyze_sentiment := fun d => Except.ok (analyze_sentiment d)
    assess_growth_potential := fun d => Except.ok (assess_growth_potential d)
    generate_recommendations := fun a => Except.ok (generate_recommendations a) }

/-- `MarketAnalyzer.analyze_data` as it stands in the source. -/
def analyze_data (ts : String) (data : MarketDataBundle) : Except String Value :=
  analyze_data_with facets ts data

/-- The `analysis` dict `analyze_data` produces from the placeholder
facet bodies: every facet at its empty/zero-value shape. -/
def degraded_analysis : Value :=
  Value.dict [("market_trends",
                Value.dict [("emerging_trends", Value.list []),
                            ("declining_trends", Value.list []),
                            ("stable_trends", Value.list [])]),
              ("competitor_analysis",
                Value.dict [("market_leaders", Value.list []),
                            ("emerging_competitors", Value.list []),
                            ("competitive_advantages", Value.dict [])]),
              ("opportunity_areas", Value.list []),
              ("risk_factors", Value.list []),
              ("market_sentiment",
                Value.dict [("overall", Value.num 0),
                            ("by_sector", Value.dict []),
                            ("by_product", Value.dict [])]),
              ("growth_potential",
                Value.dict [("short_term", Value.dict []),
                            ("medium_term", Value.dict []),
                            ("long_term", Value.dict [])])]

/-- The report `analyze_data` returns on any input. -/
def reportValue (ts : String) : Value :=
  reportOf ts degraded_analysis (Value.list [])

end MarketAnalyzer

namespace TrendDetector

/-- Modelled from the spec: `TrendDetector.identify_opportunities`
(`src/utils/trend_detector.py` is not part of the snapshot; only its
caller `MarketResearchAgent._identify_opportunities` is). The spec says
it is a "pure function of its input sequence" with "empty input yields
empty output (no error)", each Opportunity being a read-only derivation
from the input Trends; the per-trend derivation rule is unspecified and
kept as the parameter `derive`. -/
def identify_opportunities (derive : Value → Option Value)
    (trends : List Value) : List Value :=
  trends.filterMap derive

end TrendDetector

namespace MarketResearchAgent

/-- `MarketResearchAgent._extract_key_findings`: placeholder, returns `[]`. -/
def extract_key_findings (_analysis : Value) : List String := []

/-- `MarketResearchAgent._generate_recommendations`: placeholder, returns `[]`. -/
def generate_recommendations (_trends : List Value) : List String := []

/-- `MarketResearchAgent._assess_risks`: placeholder, returns `{}`. -/
def assess_risks (_analysis : Value) (_trends : List Value) : Value :=
  Value.dict []

/-- `MarketResearchAgent._generate_insights`: assembles the insight dict
from the three helpers. -/
def generate_insights (analysis : Value) (trends : List Value) : Value :=
  Value.dict [("key_findings",
                Value.list ((extract_key_findings analysis).map Value.str)),
              ("recommendations",
                Value.list ((generate_recommendations trends).map Value.str)),
              ("risk_assessment", assess_risks analysis trends)]

/-- The behaviour of the five awaited stages inside `run()`'s `try:`
block; each stage either returns a value or raises (`Except.error`). -/
structure RunStages where
  gather_market_data : Except String MarketDataBundle
  analyze_market_data : MarketDataBundle → Except String Value
  detect_trends : MarketDataBundle → Except String (List Value)
  identify_opportunities : List Value → Except String (List Value)
  generate_insights : Value → List Value → Except String Value

/-- `MarketResearchAgent.run`: the `try:` block runs the five stages in
strict sequence; `except Exception as e:` converts any raised fault into
`{'status': 'error', 'error': str(e)}`. The function itself is total. -/
def run (st : RunStages) : Value :=
  match (do
    let market_data ← st.gather_market_data
    let market_analysis ← st.analyze_market_data market_data
    let trends ← st.detect_trends market_data
    let opportunities ← st.identify_opportunities trends
    let insights ← st.generate_insights market_analysis trends
    pure (Value.dict [("status", Value.str "success"),
      ("market_analysis", market_analysis),
      ("trends", Value.list trends),
      ("opportunities", Value.list opportunities),
      ("insights", insights)]) : Except String Value) with
  | Except.ok v => v
  | Except.error e =>
      Value.dict [("status", Value.str "error"), ("error", Value.str e)]

/-- The stage behaviours obtained by wiring `run()` to the concrete
`MarketAnalyzer` code of the snapshot, with the missing `TrendDetector`
stages given as arbitrary non-raising functions. -/
def concreteStages (o1 o2 o3 : NetOutcome) (t1 t2 t3 t4 tb ta : String)
    (detect : MarketDataBundle → List Value)
    (identify : List Value → List Value) : RunStages :=
  { gather_market_data :=
      (MarketAnalyzer.gather_data MarketAnalyzer.GatherFault.noFault
        o1 o2 o3 t1 t2 t3 t4 tb).result
    analyze_market_data := fun b => MarketAnalyzer.analyze_data ta b
    detect_trends := fun b => Except.ok (detect b)
    identify_opportunities := fun l => Except.ok (identify l)
    generate_insights := fun a l => Except.ok (generate_insights a l) }

end MarketResearchAgent

/-! ### Concrete inputs used to instantiate the theorems -/

/-- A bundle with no sources, for instantiating facet arguments. -/
def emptyBundle : MarketDataBundle := { timestamp := "t", sources := [] }

/-- The placeholder facets with a fault injected into the trend facet. -/
def failingFacets : MarketAnalyzer.AnalyzerFacets :=
  { MarketAnalyzer.facets with analyze_trends := fun _ => Except.error "boom" }

/-- A successful fetch result tagged `dup`, arriving first. -/
def dupFirst : FetchResult :=
  { source := some "dup", data := some (Value.str "first"),
    error := none, timestamp := some "t1" }

/-- A failed fetch result tagged `dup`, arriving second. -/
def dupSecond : FetchResult :=
  { source := some "dup", data := none,
    error := some "boom", timestamp := some "t2" }

/-- A fetch result with no source tag. -/
def untagged : FetchResult :=
  { source := none, data := some (Value.str "x"),
    error := none, timestamp := some "t3" }

namespace MarketAnalyzer

/-! ### Association-list (Python dict) lemmas -/

lemma lookupSrc_dictInsert_self (m : List (String × SourceEntry))
    (k : String) (v : SourceEntry) :
    lookupSrc (dictInsert m k v) k = some v := by
  induction m with
  | nil => simp [dictInsert, lookupSrc]
  | cons p rest ih =>
      obtain ⟨k', v'⟩ := p
      by_cases h : k' = k
      · simp [dictInsert, h, lookupSrc]
      · simp [dictInsert, h, lookupSrc, ih]

lemma lookupSrc_dictInsert_ne (m : List (String × SourceEntry))
    (k k0 : String) (v : SourceEntry) (h : k ≠ k0) :
    lookupSrc (dictInsert m k0 v) k = lookupSrc m k := by
  have h' : ¬(k0 = k) := fun e => h e.symm
  induction m with
  | nil => simp [dictInsert, lookupSrc, h']
  | cons p rest ih =>
      obtain ⟨k', v'⟩ := p
      by_cases hp : k' = k0
      · simp [dictInsert, hp, lookupSrc, h']
      · by_cases hk : k' = k
        · simp [dictInsert, hp, lookupSrc, hk, h]
        · simp [dictInsert, hp, lookupSrc, hk, ih]

lemma keys_dictInsert (m : List (String × SourceEntry))
    (k : String) (v : SourceEntry) :
    (dictInsert m k v).map Prod.fst =
      if k ∈ m.map Prod.fst then m.map Prod.fst
      else m.map Prod.fst ++ [k] := by
  induction m with
  | nil => simp [dictInsert]
  | cons p rest ih =>
      obtain ⟨k', v'⟩ := p
      by_cases hp : k' = k
      · simp [dictInsert, hp]
      · have hk : ¬(k = k') := fun e => hp e.symm
        by_cases hm : k ∈ rest.map Prod.fst
        · simp [dictInsert, hp, hk, hm, ih]
        · simp [dictInsert, hp, hk, hm, ih]

lemma nodup_keys_dictInsert (m : List (String × SourceEntry))
    (k : String) (v : SourceEntry)
    (h : (m.map Prod.fst).Nodup) :
    ((dictInsert m k v).map Prod.fst).Nodup := by
  rw [keys_dictInsert]
  by_cases hm : k ∈ m.map Prod.fst
  · simpa [hm] using h
  · simp only [hm, if_false]
    exact List.Nodup.append h (List.nodup_singleton k)
      (by simpa [List.disjoint_singleton] using hm)

lemma lookupSrc_isSome_mem (m : List (String × SourceEntry)) (k : String)
    (e : SourceEntry) (h : lookupSrc m k = some e) : k ∈ m.map Prod.fst := by
  induction m with
  | nil => simp [lookupSrc] at h
  | cons p rest ih =>
      obtain ⟨k', v'⟩ := p
      by_cases hp : k' = k
      · simp [hp]
      · simp only [lookupSrc, hp, if_false] at h
        simp [ih h]

/-! ### Fold lemmas for `_combine_data` -/

lemma combineStep_of_source (acc : List (String × SourceEntry))
    (r : FetchResult) (s : String) (h : r.source = some s) (hs : s ≠ "") :
    combineStep acc r = dictInsert acc s (entryOf r) := by
  simp [combineStep, h, hs]

lemma combineStep_of_not_truthy (acc : List (String × SourceEntry))
    (r : FetchResult) (h : hasTruthySource r = false) :
    combineStep acc r = acc := by
  unfold combineStep
  cases hr : r.source with
  | none => rfl
  | some s =>
      have : s = "" := by simpa [hasTruthySource, hr] using h
      simp [this]

lemma lookupSrc_foldl_combineStep (results : List FetchResult)
    (acc : List (String × SourceEntry)) (k : String) (hk : k ≠ "") :
    lookupSrc (results.foldl combineStep acc) k =
      (match lastWithSource results k with
       | some r => some (entryOf r)
       | none => lookupSrc acc k) := by
  induction results generalizing acc with
  | nil => simp [lastWithSource]
  | cons r rest ih =>
      rw [List.foldl_cons, ih]
      cases hl : lastWithSource rest k with
      | some r' => simp [lastWithSource, hl]
      | none =>
          simp only [lastWithSource, hl]
          by_cases hr : r.source = some k
          · rw [combineStep_of_source acc r k hr hk, hr]
            simp [lookupSrc_dictInsert_self]
          · rw [if_neg hr]
            cases hs : r.source with
            | none => simp [combineStep, hs]
            | some s =>
                have hsk : s ≠ k := fun e => hr (by rw [hs, e])
                by_cases hse : s = ""
                · simp [combineStep, hs, hse]
                · rw [combineStep_of_source acc r s hs hse,
                    lookupSrc_dictInsert_ne acc k s (entryOf r) (fun e => hsk e.symm)]

lemma nodup_keys_foldl_combineStep (results : List FetchResult)
    (acc : List (String × SourceEntry))
    (h : (acc.map Prod.fst).Nodup) :
    (((results.foldl combineStep acc)).map Prod.fst).Nodup := by
  induction results generalizing acc with
  | nil => simpa using h
  | cons r rest ih =>
      rw [List.foldl_cons]
      apply ih
      unfold combineStep
      cases r.source with
      | none => exact h
      | some s =>
          by_cases hse : s = ""
          · simpa [hse] using h
          · simpa [hse] using nodup_keys_dictInsert acc s (entryOf r) h

lemma foldl_combineStep_filter (results : List FetchResult)
    (acc : List (String × SourceEntry)) :
    (results.filter hasTruthySource).foldl combineStep acc =
      results.foldl combineStep acc := by
  induction results generalizing acc with
  | nil => rfl
  | cons r rest ih =>
      cases ht : hasTruthySource r with
      | true => rw [List.filter_cons_of_pos ht, List.foldl_cons, List.foldl_cons, ih]
      | false =>
          rw [List.filter_cons_of_neg (by simp [ht]), List.foldl_cons,
            combineStep_of_not_truthy acc r ht, ih]

/-! ### Fetcher shape lemmas -/

lemma gather_industry_trends_source (o : NetOutcome) (ts : String) :
    (gather_industry_trends o ts).source = some "industry_trends" ∧
    (gather_industry_trends o ts).timestamp = some ts := by
  cases o with
  | exn e => exact ⟨rfl, rfl⟩
  | response status parse =>
      by_cases h : status = 200
      · cases parse <;> simp [gather_industry_trends, h]
      · simp [gather_industry_trends, h]

lemma gather_competitor_data_source (o : NetOutcome) (ts : String) :
    (gather_competitor_data o ts).source = some "competitor_data" ∧
    (gather_competitor_data o ts).timestamp = some ts := by
  cases o with
  | exn e => exact ⟨rfl, rfl⟩
  | response status parse =>
      by_cases h : status = 200
      · cases parse <;> simp [gather_competitor_data, h]
      · simp [gather_competitor_data, h]

lemma gather_market_demands_source (o : NetOutcome) (ts : String) :
    (gather_market_demands o ts).source = some "market_demands" ∧
    (gather_market_demands o ts).timestamp = some ts := by
  cases o with
  | exn e => exact ⟨rfl, rfl⟩
  | response status parse =>
      by_cases h : status = 200
      · cases parse <;> simp [gather_market_demands, h]
      · simp [gather_market_demands, h]

lemma gather_industry_trends_failed (o : NetOutcome) (ts : String)
    (h : o.failed = true) :
    (gather_industry_trends o ts).data = none ∧
    ∃ m, (gather_industry_trends o ts).error = some m := by
  cases o with
  | exn e => exact ⟨rfl, e, rfl⟩
  | response status parse =>
      by_cases hs : status = 200
      · cases parse with
        | ok d => simp [NetOutcome.failed, hs] at h
        | error e => simp [gather_industry_trends, hs]
      · simp [gather_industry_trends, hs]

lemma gather_competitor_data_failed (o : NetOutcome) (ts : String)
    (h : o.failed = true) :
    (gather_competitor_data o ts).data = none ∧
    ∃ m, (gather_competitor_data o ts).error = some m := by
  cases o with
  | exn e => exact ⟨rfl, e, rfl⟩
  | response status parse =>
      by_cases hs : status = 200
      · cases parse with
        | ok d => simp [NetOutcome.failed, hs] at h
        | error e => simp [gather_competitor_data, hs]
      · simp [gather_competitor_data, hs]

lemma gather_market_demands_failed (o : NetOutcome) (ts : String)
    (h : o.failed = true) :
    (gather_market_demands o ts).data = none ∧
    ∃ m, (gather_market_demands o ts).error = some m := by
  cases o with
  | exn e => exact ⟨rfl, e, rfl⟩
  | response status parse =>
      by_cases hs : status = 200
      · cases parse with
        | ok d => simp [NetOutcome.failed, hs] at h
        | error e => simp [gather_market_demands, hs]
      · simp [gather_market_demands, hs]

lemma lastWithSource_gatherResults (o1 o2 o3 : NetOutcome)
    (t1 t2 t3 t4 : String) :
    lastWithSource (gatherResults o1 o2 o3 t1 t2 t3 t4) "industry_trends" =
      some (gather_industry_trends o1 t1) ∧
    lastWithSource (gatherResults o1 o2 o3 t1 t2 t3 t4) "competitor_data" =
      some (gather_competitor_data o2 t2) ∧
    lastWithSource (gatherResults o1 o2 o3 t1 t2 t3 t4) "market_demands" =
      some (gather_market_demands o3 t3) := by
  refine ⟨?_, ?_, ?_⟩ <;>
    simp [lastWithSource, gatherResults,
      (gather_industry_trends_source o1 t1).1,
      (gather_competitor_data_source o2 t2).1,
      (gather_market_demands_source o3 t3).1,
      gather_social_media_trends]

end MarketAnalyzer

/-! ### Claim theorems -/

/-- C1: `run()` never raises — the embedding is a total function for
every behaviour of the five stages, including any of them raising — and
every code path returns a `CycleResult`-shaped dict: on success exactly
`status = "success"`, `market_analysis`, `trends`, `opportunities`,
`insights`; on failure exactly `status = "error"` and `error = <message>`. -/
theorem run_total_cycle_result_shape (st : MarketResearchAgent.RunStages) :
    (∃ a t o i, MarketResearchAgent.run st =
        Value.dict [("status", Value.str "success"), ("market_analysis", a),
          ("trends", Value.list t), ("opportunities", Value.list o),
          ("insights", i)]) ∨
    (∃ m, MarketResearchAgent.run st =
        Value.dict [("status", Value.str "error"), ("error", Value.str m)]) := by
  unfold MarketResearchAgent.run
  cases hg : st.gather_market_data with
  | error e => exact Or.inr ⟨e, by simp [hg, Except.bind, Bind.bind]⟩
  | ok md =>
    cases ha : st.analyze_market_data md with
    | error e => exact Or.inr ⟨e, by simp [hg, ha, Except.bind, Bind.bind]⟩
    | ok ma =>
      cases ht : st.detect_trends md with
      | error e => exact Or.inr ⟨e, by simp [hg, ha, ht, Except.bind, Bind.bind]⟩
      | ok tr =>
        cases ho : st.identify_opportunities tr with
        | error e =>
            exact Or.inr ⟨e, by simp [hg, ha, ht, ho, Except.bind, Bind.bind]⟩
        | ok op =>
          cases hi : st.generate_insights ma tr with
          | error e =>
              exact Or.inr ⟨e,
                by simp [hg, ha, ht, ho, hi, Except.bind, Bind.bind]⟩
          | ok ins =>
              exact Or.inl ⟨ma, tr, op, ins,
                by simp [hg, ha, ht, ho, hi, Except.bind, Bind.bind,
                  Pure.pure, Except.pure]⟩

/-- C2: for every combination of per-source success/failure outcomes,
`gather_data` returns (after all four fetches are joined) a bundle whose
`sources` dict has exactly one entry per configured source —
`industry_trends`, `competitor_data`, `market_demands`, `social_media` —
in that order. -/
theorem gather_bundle_complete (o1 o2 o3 : NetOutcome)
    (t1 t2 t3 t4 tb : String) :
    (MarketAnalyzer.gather_data MarketAnalyzer.GatherFault.noFault
        o1 o2 o3 t1 t2 t3 t4 tb).result =
      Except.ok (MarketAnalyzer.gatherBundle o1 o2 o3 t1 t2 t3 t4 tb) ∧
    (MarketAnalyzer.gatherBundle o1 o2 o3 t1 t2 t3 t4 tb).sources.map Prod.fst =
      ["industry_trends", "competitor_data", "market_demands", "social_media"] := by
  refine ⟨rfl, ?_⟩
  show ((MarketAnalyzer.gatherResults o1 o2 o3 t1 t2 t3 t4).foldl
    MarketAnalyzer.combineStep []).map Prod.fst = _
  rw [MarketAnalyzer.gatherResults, List.foldl_cons, List.foldl_cons,
    List.foldl_cons, List.foldl_cons, List.foldl_nil,
    MarketAnalyzer.combineStep_of_source _ _ _
      (MarketAnalyzer.gather_industry_trends_source o1 t1).1 (by decide),
    MarketAnalyzer.combineStep_of_source _ _ _
      (MarketAnalyzer.gather_competitor_data_source o2 t2).1 (by decide),
    MarketAnalyzer.combineStep_of_source _ _ _
      (MarketAnalyzer.gather_market_demands_source o3 t3).1 (by decide),
    MarketAnalyzer.combineStep_of_source _ _ _
      (rfl : (MarketAnalyzer.gather_social_media_trends t4).source =
        some "social_media") (by decide)]
  simp [MarketAnalyzer.dictInsert]

/-- C7: on every exit path of `gather_data` — normal combination or an
unexpected fault propagating from outside the fetch tasks — the aiohttp
session opened at the start is closed before the call returns, while the
fault (if any) propagates unchanged. -/
theorem gather_data_closes_session (f : MarketAnalyzer.GatherFault)
    (o1 o2 o3 : NetOutcome) (t1 t2 t3 t4 tb : String) :
    (MarketAnalyzer.gather_data f o1 o2 o3 t1 t2 t3 t4 tb).sessionClosed = true ∧
    (∀ m, f = MarketAnalyzer.GatherFault.fault m →
      (MarketAnalyzer.gather_data f o1 o2 o3 t1 t2 t3 t4 tb).result =
        Except.error m) := by
  refine ⟨rfl, ?_⟩
  intro m hm
  subst hm
  rfl

/-- Witness for C7 at a concrete injected fault. -/
theorem gather_data_closes_session_witness :
    (MarketAnalyzer.gather_data (MarketAnalyzer.GatherFault.fault "boom")
        (NetOutcome.exn "x") (NetOutcome.exn "x") (NetOutcome.exn "x")
        "t1" "t2" "t3" "t4" "tb").sessionClosed = true ∧
    (MarketAnalyzer.gather_data (MarketAnalyzer.GatherFault.fault "boom")
        (NetOutcome.exn "x") (NetOutcome.exn "x") (NetOutcome.exn "x")
        "t1" "t2" "t3" "t4" "tb").result = Except.error "boom" :=
  ⟨(gather_data_closes_session _ _ _ _ _ _ _ _ _).1,
   (gather_data_closes_session _ _ _ _ _ _ _ _ _).2 "boom" rfl⟩

/-- C8: the social-media source has no configured endpoint and always
returns the stub success result with `source = "social_media"`,
`data = {'trends': []}`, the given timestamp and no error. -/
theorem social_media_stub_success (ts : String) :
    MarketAnalyzer.gather_social_media_trends ts =
      { source := some "social_media",
        data := some (Value.dict [("trends", Value.list [])]),
        error := none, timestamp := some ts } := rfl

/-- C9: `identify_opportunities` (modelled from the spec, since
`src/utils/trend_detector.py` is not in the snapshot) is a pure function
of its input trend sequence; for every derivation rule, the empty input
sequence yields the empty output sequence without error. -/
theorem identify_opportunities_empty (derive : Value → Option Value) :
    TrendDetector.identify_opportunities derive [] = [] := rfl

/-- C4: for every network outcome, each HTTP-backed SourceFetcher
returns (never raises) a result tagged with its source name and the call
timestamp; a non-200 status yields
`error = "Failed to fetch data: <status>"`, a transport or parse
exception yields `error` equal to the exception message, and a 200
response with parsable body yields a populated `data` field and no
error. -/
theorem fetchers_tagged_timestamped_total (o : NetOutcome) (ts : String) :
    ((MarketAnalyzer.gather_industry_trends o ts).source = some "industry_trends" ∧
     (MarketAnalyzer.gather_competitor_data o ts).source = some "competitor_data" ∧
     (MarketAnalyzer.gather_market_demands o ts).source = some "market_demands") ∧
    ((MarketAnalyzer.gather_industry_trends o ts).timestamp = some ts ∧
     (MarketAnalyzer.gather_competitor_data o ts).timestamp = some ts ∧
     (MarketAnalyzer.gather_market_demands o ts).timestamp = some ts) ∧
    (∀ status parse, o = NetOutcome.response status parse → status ≠ 200 →
      (MarketAnalyzer.gather_industry_trends o ts).error =
        some ("Failed to fetch data: " ++ toString status) ∧
      (MarketAnalyzer.gather_competitor_data o ts).error =
        some ("Failed to fetch data: " ++ toString status) ∧
      (MarketAnalyzer.gather_market_demands o ts).error =
        some ("Failed to fetch data: " ++ toString status)) ∧
    (∀ m, o = NetOutcome.exn m →
      (MarketAnalyzer.gather_industry_trends o ts).error = some m ∧
      (MarketAnalyzer.gather_competitor_data o ts).error = some m ∧
      (MarketAnalyzer.gather_market_demands o ts).error = some m) ∧
    (∀ e, o = NetOutcome.response 200 (Except.error e) →
      (MarketAnalyzer.gather_industry_trends o ts).error = some e ∧
      (MarketAnalyzer.gather_competitor_data o ts).error = some e ∧
      (MarketAnalyzer.gather_market_demands o ts).error = some e) ∧
    (∀ d, o = NetOutcome.response 200 (Except.ok d) →
      (MarketAnalyzer.gather_industry_trends o ts).data = some d ∧
      (MarketAnalyzer.gather_industry_trends o ts).error = none ∧
      (MarketAnalyzer.gather_competitor_data o ts).data = some d ∧
      (MarketAnalyzer.gather_competitor_data o ts).error = none ∧
      (MarketAnalyzer.gather_market_demands o ts).data = some d ∧
      (MarketAnalyzer.gather_market_demands o ts).error = none) := by
  refine ⟨⟨(MarketAnalyzer.gather_industry_trends_source o ts).1,
           (MarketAnalyzer.gather_competitor_data_source o ts).1,
           (MarketAnalyzer.gather_market_demands_source o ts).1⟩,
          ⟨(MarketAnalyzer.gather_industry_trends_source o ts).2,
           (MarketAnalyzer.gather_competitor_data_source o ts).2,
           (MarketAnalyzer.gather_market_demands_source o ts).2⟩,
          ?_, ?_, ?_, ?_⟩
  · intro status parse ho hs
    subst ho
    exact ⟨by simp [MarketAnalyzer.gather_industry_trends, hs],
           by simp [MarketAnalyzer.gather_competitor_data, hs],
           by simp [MarketAnalyzer.gather_market_demands, hs]⟩
  · intro m ho
    subst ho
    exact ⟨rfl, rfl, rfl⟩
  · intro e ho
    subst ho
    exact ⟨by simp [MarketAnalyzer.gather_industry_trends],
           by simp [MarketAnalyzer.gather_competitor_data],
           by simp [MarketAnalyzer.gather_market_demands]⟩
  · intro d ho
    subst ho
    exact ⟨by simp [MarketAnalyzer.gather_industry_trends],
           by simp [MarketAnalyzer.gather_industry_trends],
           by simp [MarketAnalyzer.gather_competitor_data],
           by simp [MarketAnalyzer.gather_competitor_data],
           by simp [MarketAnalyzer.gather_market_demands],
           by simp [MarketAnalyzer.gather_market_demands]⟩

/-- Witness for C4: a 500 response, a transport failure and a parse
failure at concrete inputs. -/
theorem fetchers_tagged_timestamped_total_witness :
    ((MarketAnalyzer.gather_industry_trends
        (NetOutcome.response 500 (Except.ok Value.null)) "ts").error =
      some ("Failed to fetch data: " ++ toString 500) ∧
     (MarketAnalyzer.gather_competitor_data
        (NetOutcome.response 500 (Except.ok Value.null)) "ts").error =
      some ("Failed to fetch data: " ++ toString 500) ∧
     (MarketAnalyzer.gather_market_demands
        (NetOutcome.response 500 (Except.ok Value.null)) "ts").error =
      some ("Failed to fetch data: " ++ toString 500)) ∧
    ((MarketAnalyzer.gather_industry_trends (NetOutcome.exn "down") "ts").error =
      some "down" ∧
     (MarketAnalyzer.gather_competitor_data (NetOutcome.exn "down") "ts").error =
      some "down" ∧
     (MarketAnalyzer.gather_market_demands (NetOutcome.exn "down") "ts").error =
      some "down") ∧
    ((MarketAnalyzer.gather_industry_trends
        (NetOutcome.response 200 (Except.error "bad json")) "ts").error =
      some "bad json" ∧
     (MarketAnalyzer.gather_competitor_data
        (NetOutcome.response 200 (Except.error "bad json")) "ts").error =
      some "bad json" ∧
     (MarketAnalyzer.gather_market_demands
        (NetOutcome.response 200 (Except.error "bad json")) "ts").error =
      some "bad json") :=
  ⟨(fetchers_tagged_timestamped_total
      (NetOutcome.response 500 (Except.ok Value.null)) "ts").2.2.1
        500 (Except.ok Value.null) rfl (by decide),
   (fetchers_tagged_timestamped_total (NetOutcome.exn "down") "ts").2.2.2.1
     "down" rfl,
   (fetchers_tagged_timestamped_total
      (NetOutcome.response 200 (Except.error "bad json")) "ts").2.2.2.2.1
     "bad json" rfl⟩

/-- C5: when two fetch results in the joined result list claim the same
source identifier, the combined bundle keeps exactly one entry for that
identifier, equal to the entry built from the result arriving last in
join order. -/
theorem combine_last_write_wins (tb k : String) (results : List FetchResult)
    (r : FetchResult) (hk : k ≠ "")
    (hl : MarketAnalyzer.lastWithSource results k = some r) :
    MarketAnalyzer.lookupSrc (MarketAnalyzer.combine_data tb results).sources k =
      some (MarketAnalyzer.entryOf r) ∧
    ((MarketAnalyzer.combine_data tb results).sources.map Prod.fst).count k = 1 := by
  have hlook : MarketAnalyzer.lookupSrc
      (MarketAnalyzer.combine_data tb results).sources k =
      some (MarketAnalyzer.entryOf r) := by
    show MarketAnalyzer.lookupSrc
      (results.foldl MarketAnalyzer.combineStep []) k = _
    rw [MarketAnalyzer.lookupSrc_foldl_combineStep results [] k hk, hl]
  refine ⟨hlook, ?_⟩
  have hnd := MarketAnalyzer.nodup_keys_foldl_combineStep results [] (by simp)
  have hmem := MarketAnalyzer.lookupSrc_isSome_mem _ k (MarketAnalyzer.entryOf r) hlook
  exact List.count_eq_one_of_mem hnd hmem

/-- Witness for C5: two results both tagged `dup`; the second one wins. -/
theorem combine_last_write_wins_witness :
    MarketAnalyzer.lookupSrc
      (MarketAnalyzer.combine_data "tb" [dupFirst, dupSecond]).sources "dup" =
      some (MarketAnalyzer.entryOf dupSecond) ∧
    ((MarketAnalyzer.combine_data "tb" [dupFirst, dupSecond]).sources.map
      Prod.fst).count "dup" = 1 :=
  combine_last_write_wins "tb" "dup" [dupFirst, dupSecond] dupSecond
    (by decide) rfl

/-- C10: every bundle entry is the three-field record
`{data, error, timestamp}`; a result whose `data` key is absent (a
failed fetch) is stored with `data = {}` while keeping its error message
and timestamp — both present simultaneously — and any result without a
truthy `source` tag is silently omitted from the bundle. -/
theorem combine_entry_defaults_and_omission (tb : String)
    (results : List FetchResult) (k : String) (r : FetchResult) :
    (k ≠ "" → MarketAnalyzer.lastWithSource results k = some r →
      r.data = none →
      MarketAnalyzer.lookupSrc (MarketAnalyzer.combine_data tb results).sources k =
        some { data := Value.dict [], error := r.error,
               timestamp := r.timestamp }) ∧
    MarketAnalyzer.combine_data tb results =
      MarketAnalyzer.combine_data tb
        (results.filter MarketAnalyzer.hasTruthySource) := by
  constructor
  · intro hk hl hd
    show MarketAnalyzer.lookupSrc
      (results.foldl MarketAnalyzer.combineStep []) k = _
    rw [MarketAnalyzer.lookupSrc_foldl_combineStep results [] k hk, hl]
    simp [MarketAnalyzer.entryOf, hd]
  · simp only [MarketAnalyzer.combine_data,
      MarketAnalyzer.foldl_combineStep_filter]

/-- Witness for C10: a sourceless result is dropped and a failed result
keeps both its defaulted `data = {}` and its error message. -/
theorem combine_entry_defaults_and_omission_witness :
    MarketAnalyzer.lookupSrc
      (MarketAnalyzer.combine_data "tb" [untagged, dupSecond]).sources "dup" =
      some { data := Value.dict [], error := some "boom",
             timestamp := some "t2" } ∧
    MarketAnalyzer.combine_data "tb" [untagged, dupSecond] =
      MarketAnalyzer.combine_data "tb"
        ([untagged, dupSecond].filter MarketAnalyzer.hasTruthySource) :=
  ⟨(combine_entry_defaults_and_omission "tb" [untagged, dupSecond]
      "dup" dupSecond).1 (by decide) rfl rfl,
   (combine_entry_defaults_and_omission "tb" [untagged, dupSecond]
      "dup" dupSecond).2⟩

/-- C6: for every behaviour of the six analysis facets and the
recommendation step, a fault inside any of them never yields a partial
report: a successful `analyze_data` result is the full report assembled
from successful facet runs, and every failing run raises exactly one
wrapped error whose message is prefixed `"Error analyzing market data: "`. -/
theorem analyze_data_wraps_faults (F : MarketAnalyzer.AnalyzerFacets)
    (ts : String) (d : MarketDataBundle) :
    (∀ e, MarketAnalyzer.analyze_data_with F ts d = Except.error e →
      ∃ m, e = "Error analyzing market data: " ++ m) ∧
    (∀ v, MarketAnalyzer.analyze_data_with F ts d = Except.ok v →
      ∃ mt ca oa rf ms gp recs,
        F.analyze_trends d = Except.ok mt ∧
        F.analyze_competitors d = Except.ok ca ∧
        F.identify_opportunities d = Except.ok oa ∧
        F.assess_risks d = Except.ok rf ∧
        F.analyze_sentiment d = Except.ok ms ∧
        F.assess_growth_potential d = Except.ok gp ∧
        F.generate_recommendations
          (MarketAnalyzer.assembleAnalysis mt ca oa rf ms gp) =
            Except.ok recs ∧
        v = MarketAnalyzer.reportOf ts
          (MarketAnalyzer.assembleAnalysis mt ca oa rf ms gp) recs) := by
  unfold MarketAnalyzer.analyze_data_with
  cases h1 : F.analyze_trends d with
  | error m1 =>
      refine ⟨?_, ?_⟩ <;> intro x hx <;>
        simp [h1, Except.bind, Bind.bind] at hx
      exact ⟨m1, hx.symm⟩
  | ok mt =>
    cases h2 : F.analyze_competitors d with
    | error m2 =>
        refine ⟨?_, ?_⟩ <;> intro x hx <;>
          simp [h1, h2, Except.bind, Bind.bind] at hx
        exact ⟨m2, hx.symm⟩
    | ok ca =>
      cases h3 : F.identify_opportunities d with
      | error m3 =>
          refine ⟨?_, ?_⟩ <;> intro x hx <;>
            simp [h1, h2, h3, Except.bind, Bind.bind] at hx
          exact ⟨m3, hx.symm⟩
      | ok oa =>
        cases h4 : F.assess_risks d with
        | error m4 =>
            refine ⟨?_, ?_⟩ <;> intro x hx <;>
              simp [h1, h2, h3, h4, Except.bind, Bind.bind] at hx
            exact ⟨m4, hx.symm⟩
        | ok rf =>
          cases h5 : F.analyze_sentiment d with
          | error m5 =>
              refine ⟨?_, ?_⟩ <;> intro x hx <;>
                simp [h1, h2, h3, h4, h5, Except.bind, Bind.bind] at hx
              exact ⟨m5, hx.symm⟩
          | ok ms =>
            cases h6 : F.assess_growth_potential d with
            | error m6 =>
                refine ⟨?_, ?_⟩ <;> intro x hx <;>
                  simp [h1, h2, h3, h4, h5, h6, Except.bind, Bind.bind] at hx
                exact ⟨m6, hx.symm⟩
            | ok gp =>
              cases h7 : F.generate_recommendations
                  (MarketAnalyzer.assembleAnalysis mt ca oa rf ms gp) with
              | error m7 =>
                  refine ⟨?_, ?_⟩ <;> intro x hx <;>
                    simp [h1, h2, h3, h4, h5, h6, h7,
                      Except.bind, Bind.bind] at hx
                  exact ⟨m7, hx.symm⟩
              | ok recs =>
                  refine ⟨?_, ?_⟩ <;> intro x hx <;>
                    simp [h1, h2, h3, h4, h5, h6, h7, Except.bind, Bind.bind,
                      Pure.pure, Except.pure] at hx
                  exact ⟨mt, ca, oa, rf, ms, gp, recs,
                    rfl, rfl, rfl, rfl, rfl, rfl, h7, hx.symm⟩

/-- Witness for C6: a fault injected into the trend facet surfaces as
the single wrapped error. -/
theorem analyze_data_wraps_faults_witness :
    MarketAnalyzer.analyze_data_with failingFacets "t" emptyBundle =
      Except.error "Error analyzing market data: boom" ∧
    ∃ m, ("Error analyzing market data: boom" : String) =
      "Error analyzing market data: " ++ m :=
  ⟨rfl, (analyze_data_wraps_faults failingFacets "t" emptyBundle).1 _ rfl⟩

/-- C3: if all three network fetches fail (the social-media source is a
stub that cannot fail), the bundle's three network-source entries all
carry an error message with `data = {}`, yet `run()` — wired to the
concrete analyzer, with any non-raising trend-detection stages — still
returns `status = "success"` with all six analysis facets degraded to
their empty/zero-value shapes; only a fault raised inside the
analysis/trend/insight stages could produce `status = "error"`. -/
theorem run_success_when_all_fetches_fail
    (o1 o2 o3 : NetOutcome) (t1 t2 t3 t4 tb ta : String)
    (detect : MarketDataBundle → List Value)
    (identify : List Value → List Value)
    (h1 : o1.failed = true) (h2 : o2.failed = true) (h3 : o3.failed = true) :
    (∃ m, MarketAnalyzer.lookupSrc
        (MarketAnalyzer.gatherBundle o1 o2 o3 t1 t2 t3 t4 tb).sources
        "industry_trends" =
      some { data := Value.dict [], error := some m, timestamp := some t1 }) ∧
    (∃ m, MarketAnalyzer.lookupSrc
        (MarketAnalyzer.gatherBundle o1 o2 o3 t1 t2 t3 t4 tb).sources
        "competitor_data" =
      some { data := Value.dict [], error := some m, timestamp := some t2 }) ∧
    (∃ m, MarketAnalyzer.lookupSrc
        (MarketAnalyzer.gatherBundle o1 o2 o3 t1 t2 t3 t4 tb).sources
        "market_demands" =
      some { data := Value.dict [], error := some m, timestamp := some t3 }) ∧
    MarketResearchAgent.run (MarketResearchAgent.concreteStages
        o1 o2 o3 t1 t2 t3 t4 tb ta detect identify) =
      Value.dict [("status", Value.str "success"),
        ("market_analysis", MarketAnalyzer.reportValue ta),
        ("trends", Value.list
          (detect (MarketAnalyzer.gatherBundle o1 o2 o3 t1 t2 t3 t4 tb))),
        ("opportunities", Value.list
          (identify (detect (MarketAnalyzer.gatherBundle o1 o2 o3 t1 t2 t3 t4 tb)))),
        ("insights", MarketResearchAgent.generate_insights
          (MarketAnalyzer.reportValue ta)
          (detect (MarketAnalyzer.gatherBundle o1 o2 o3 t1 t2 t3 t4 tb)))] := by
  refine ⟨?_, ?_, ?_, ?_⟩
  · obtain ⟨hd, m, he⟩ := MarketAnalyzer.gather_industry_trends_failed o1 t1 h1
    refine ⟨m, ?_⟩
    show MarketAnalyzer.lookupSrc
      ((MarketAnalyzer.gatherResults o1 o2 o3 t1 t2 t3 t4).foldl
        MarketAnalyzer.combineStep []) "industry_trends" = _
    rw [MarketAnalyzer.lookupSrc_foldl_combineStep
        (MarketAnalyzer.gatherResults o1 o2 o3 t1 t2 t3 t4) []
        "industry_trends" (by decide),
      (MarketAnalyzer.lastWithSource_gatherResults o1 o2 o3 t1 t2 t3 t4).1]
    simp [MarketAnalyzer.entryOf, hd, he,
      (MarketAnalyzer.gather_industry_trends_source o1 t1).2]
  · obtain ⟨hd, m, he⟩ := MarketAnalyzer.gather_competitor_data_failed o2 t2 h2
    refine ⟨m, ?_⟩
    show MarketAnalyzer.lookupSrc
      ((MarketAnalyzer.gatherResults o1 o2 o3 t1 t2 t3 t4).foldl
        MarketAnalyzer.combineStep []) "competitor_data" = _
    rw [MarketAnalyzer.lookupSrc_foldl_combineStep
        (MarketAnalyzer.gatherResults o1 o2 o3 t1 t2 t3 t4) []
        "competitor_data" (by decide),
      (MarketAnalyzer.lastWithSource_gatherResults o1 o2 o3 t1 t2 t3 t4).2.1]
    simp [MarketAnalyzer.entryOf, hd, he,
      (MarketAnalyzer.gather_competitor_data_source o2 t2).2]
  · obtain ⟨hd, m, he⟩ := MarketAnalyzer.gather_market_demands_failed o3 t3 h3
    refine ⟨m, ?_⟩
    show MarketAnalyzer.lookupSrc
      ((MarketAnalyzer.gatherResults o1 o2 o3 t1 t2 t3 t4).foldl
        MarketAnalyzer.combineStep []) "market_demands" = _
    rw [MarketAnalyzer.lookupSrc_foldl_combineStep
        (MarketAnalyzer.gatherResults o1 o2 o3 t1 t2 t3 t4) []
        "market_demands" (by decide),
      (MarketAnalyzer.lastWithSource_gatherResults o1 o2 o3 t1 t2 t3 t4).2.2]
    simp [MarketAnalyzer.entryOf, hd, he,
      (MarketAnalyzer.gather_market_demands_source o3 t3).2]
  · rfl

/-- Witness for C3 at three concrete transport failures and trivial
trend stages. -/
theorem run_success_when_all_fetches_fail_witness :
    MarketResearchAgent.run (MarketResearchAgent.concreteStages
        (NetOutcome.exn "down") (NetOutcome.exn "down") (NetOutcome.exn "down")
        "t1" "t2" "t3" "t4" "tb" "ta" (fun _ => []) (fun _ => [])) =
      Value.dict [("status", Value.str "success"),
        ("market_analysis", MarketAnalyzer.reportValue "ta"),
        ("trends", Value.list []),
        ("opportunities", Value.list []),
        ("insights", MarketResearchAgent.generate_insights
          (MarketAnalyzer.reportValue "ta") [])] :=
  (run_success_when_all_fetches_fail (NetOutcome.exn "down")
    (NetOutcome.exn "down") (NetOutcome.exn "down")
    "t1" "t2" "t3" "t4" "tb" "ta" (fun _ => []) (fun _ => [])
    rfl rfl rfl).2.2.2
